import Mathlib

/-!
Verification of the TuShare ride-sharing backend core: the ride-booking
transaction (`app/services/rides_service.py`), the JWT authentication gate
(`app/core/token_bearer.py`, `app/utils/auth.py`, `app/core/dependencies.py`),
the ride listing query, the URL-safe-token email-verification flow
(`app/routers/auth.py`), and the central exception-to-HTTP-status mapping
(`app/__init__.py`).  Python database state is embedded as explicit record
values; each service call is a pure function from the persisted state to a
result together with the persisted state after the call (rollback and
exception paths leave the state unchanged, matching the session semantics:
uncommitted work is discarded).  Unhandled Python exceptions (for example an
`AttributeError` from dereferencing `None`) are a distinguished error
constructor, separate from the typed `APIException`s that the application
registers handlers for.
-/

namespace TuShare

/-- Booking status: `Enum("pending", "confirmed", "canceled", "completed")`
from `app/models/booking.py`. -/
inductive BookingStatus
  | pending
  | confirmed
  | canceled
  | completed
deriving DecidableEq, Repr

/-- The columns of the `users` table (`app/models/user.py`) that the verified
operations read.  Ids are strings (uuid hex). -/
structure User where
  id : String
  first_name : String
  last_name : String
  username : String
  email : String
  is_verified : Bool
  role : String
deriving DecidableEq, Repr

/-- The columns of the `rides` table (`app/models/rides.py`) that the verified
operations read.  `available_seats` is an SQL `Integer`, so it is embedded as
`Int` (nothing in the schema forces it non-negative); `price_per_seat` is a
`Float` used only by copying and equality, embedded as an integer amount. -/
structure Ride where
  id : String
  driver_id : String
  available_seats : Int
  departure_location : String
  destination : String
  price_per_seat : Int
deriving DecidableEq, Repr

/-- The columns of the `bookings` table (`app/models/booking.py`) that the
verified operations read. -/
structure Booking where
  ride_id : String
  passenger_id : String
  seats_booked : Int
  total_price : Int
  status : BookingStatus
deriving DecidableEq, Repr

/-- The persisted database state visible to the booking engine. -/
structure DB where
  rides : List Ride
  bookings : List Booking
deriving DecidableEq, Repr

/-- The typed application exceptions from `app/exceptions.py` that the
verified operations can raise (every one has a registered handler in
`app/__init__.py`). -/
inductive ApiException
  | invalidToken
  | revokedToken
  | accessTokenRequired
  | refreshTokenRequired
  | accountNotVerified
  | permissionRequired
  | userNotFound
  | destinationNotFound
  | rideNotFound
  | driverCannotBookRide
  | noSeatsLeft
  | bookingAlreadyExists
  | cannotBookRide
deriving DecidableEq, Repr

/-- The HTTP status each registered handler responds with:
`app/__init__.py`, the `app.add_exception_handler(...)` lines. -/
def handlerStatus : ApiException → Nat
  | .invalidToken => 401
  | .revokedToken => 401
  | .accessTokenRequired => 403
  | .refreshTokenRequired => 401
  | .accountNotVerified => 403
  | .permissionRequired => 403
  | .userNotFound => 404
  | .destinationNotFound => 404
  | .rideNotFound => 404
  | .driverCannotBookRide => 400
  | .noSeatsLeft => 400
  | .bookingAlreadyExists => 400
  | .cannotBookRide => 500

/-- A failure escaping a service call: either a typed `APIException`
(translated to its handler status) or an unhandled Python exception — in the
verified code paths always an `AttributeError` from dereferencing `None` —
which only the catch-all `global_exception_handler` sees. -/
inductive ServiceError
  | api (e : ApiException)
  | attributeError
deriving DecidableEq, Repr

/-- HTTP status of a failure once the exception-handler layer of
`app/__init__.py` has translated it: registered handlers for the typed
exceptions, the opaque 500 `global_exception_handler` for everything else. -/
def responseStatus : ServiceError → Nat
  | .api e => handlerStatus e
  | .attributeError => 500

/-- `select(Ride).where(Ride.id == ride_id)` followed by `.scalars().first()`:
the first stored ride with the given id, if any. -/
def findRide (db : DB) (ride_id : String) : Option Ride :=
  db.rides.find? (fun r => r.id == ride_id)

/-- Whether a booking-attempt transaction commits cleanly or the storage
layer raises `IntegrityError` at commit time (the race the except-branch of
`book_a_ride` handles). -/
inductive CommitOutcome
  | ok
  | integrityError
deriving DecidableEq, Repr

/-- `RideService.book_a_ride` (`app/services/rides_service.py`): result of
the call plus the persisted state after it.  Every failure path leaves the
persisted state unchanged — before `db.commit()` nothing is persisted, and
the `IntegrityError` branch rolls back.  On success the source returns a
`RideResponse` view of the refreshed ride; the embedding returns the inserted
booking row, which together with the returned state carries the claims'
content.  Note `if not result:` in the source tests the SQLAlchemy `Result`
object, which is always truthy, so the `RideNotFoundException` branch is
unreachable; a missing ride instead crashes at `ride.driver` with an
`AttributeError`. -/
def book_a_ride (db : DB) (ride_id : String) (user_id : String)
    (commit : CommitOutcome) : Except ServiceError Booking × DB :=
  match findRide db ride_id with
  | none => (.error .attributeError, db)
  | some ride =>
    if ride.driver_id == user_id then
      (.error (.api .driverCannotBookRide), db)
    else if ride.available_seats == 0 then
      (.error (.api .noSeatsLeft), db)
    else if db.bookings.any (fun b => b.ride_id == ride_id && b.passenger_id == user_id) then
      (.error (.api .bookingAlreadyExists), db)
    else
      let new_booking : Booking :=
        { ride_id := ride.id
          passenger_id := user_id
          seats_booked := 1
          total_price := ride.price_per_seat
          status := .pending }
      match commit with
      | .ok =>
          (.ok new_booking,
            { db with
              bookings := db.bookings ++ [new_booking]
              rides := db.rides.map (fun r =>
                if r.id == ride.id then
                  { r with available_seats := r.available_seats - 1 }
                else r) })
      | .integrityError => (.error (.api .cannotBookRide), db)

/-- A sequence of booking attempts against one ride, applied in order;
returns the final state and the number of successful bookings. -/
def runBookings (db : DB) (ride_id : String) :
    List (String × CommitOutcome) → DB × Nat
  | [] => (db, 0)
  | (user_id, c) :: rest =>
      match book_a_ride db ride_id user_id c with
      | (.ok _, db2) =>
          let r := runBookings db2 ride_id rest
          (r.1, r.2 + 1)
      | (.error _, db2) =>
          runBookings db2 ride_id rest

/-- The `available_seats` column of the (first) ride with the given id. -/
def seatsOf (db : DB) (ride_id : String) : Option Int :=
  (findRide db ride_id).map (fun r => r.available_seats)

/-- Number of stored bookings for one (ride, passenger) pair,
with the same equality test `book_a_ride`'s duplicate check uses. -/
def pairCount (db : DB) (ride_id : String) (user_id : String) : Nat :=
  (db.bookings.filter (fun b => b.ride_id == ride_id && b.passenger_id == user_id)).length

/-- At most one stored booking (of any status) per (ride, passenger) pair. -/
def atMostOnePerPair (db : DB) : Prop :=
  ∀ ride_id user_id, pairCount db ride_id user_id ≤ 1

/-! ## JWT codec and the authentication gate -/

/-- The payload fields of a bearer token that the gate reads
(`create_access_token` in `app/utils/auth.py` stores `user` data with the
email, a fresh `jti`, the `refresh` flag and an expiry). -/
structure TokenData where
  jti : String
  refresh : Bool
  email : String
deriving DecidableEq, Repr

/-- The error classes `jwt.decode` can raise, all subclasses of
`jwt.PyJWTError`: a malformed token, a wrong signature, and a token whose
signature verifies but whose `exp` has passed. -/
inductive PyJwtError
  | decodeError
  | invalidSignatureError
  | expiredSignatureError
deriving DecidableEq, Repr

/-- A bearer-token input as `jwt.decode` classifies it: malformed, signed
with the wrong key, validly signed but expired, or validly signed and
unexpired with the given payload. -/
inductive Token
  | malformed
  | badSignature (payload : TokenData)
  | expired (payload : TokenData)
  | valid (payload : TokenData)
deriving DecidableEq, Repr

/-- `jwt.decode(jwt=token, key=..., algorithms=[...])`: returns the payload
of a validly signed unexpired token and raises the matching `PyJWTError`
subclass otherwise (expiry is verified by default). -/
def jwt_decode : Token → Except PyJwtError TokenData
  | .malformed => .error .decodeError
  | .badSignature _ => .error .invalidSignatureError
  | .expired _ => .error .expiredSignatureError
  | .valid payload => .ok payload

/-- `verify_access_token` (`app/utils/auth.py`): `jwt.decode` inside
`try`, with `except jwt.PyJWTError` logging and returning `None`. -/
def verify_access_token (token : Token) : Option TokenData :=
  match jwt_decode token with
  | .ok token_data => some token_data
  | .error _ => none

/-- Modelled from the spec: `token_in_blacklist` lives in
`app/core/redis.py`, which is not among the sources (only its caller in
`app/core/token_bearer.py` is).  The spec describes the Token Revocation
Store as "a set of revoked token identifiers (blacklist)" with
`isRevoked(jti) -> bool`; the store is embedded as the list of revoked jti
values and `token_in_blacklist` as membership in it. -/
def token_in_blacklist (blacklist : List String) (jti : String) : Bool :=
  blacklist.contains jti

/-- Which `TokenBearer` subclass guards the endpoint: `AccessTokenBearer`
or `RefreshTokenBearer` (`app/core/token_bearer.py`). -/
inductive BearerKind
  | access
  | refresh
deriving DecidableEq, Repr

/-- `TokenBearer.__call__` (`app/core/token_bearer.py`): decode the token
(`token_valid` raises `InvalidTokenException` when `verify_access_token`
returned `None`), then check the jti against the blacklist
(`RevokedTokenException`), then run the subclass type check
(`AccessTokenRequiredException` when an access bearer got a refresh token,
`RefreshTokenRequiredException` when a refresh bearer got an access token),
and finally return the token data. -/
def tokenBearerCall (kind : BearerKind) (blacklist : List String)
    (token : Token) : Except ApiException TokenData :=
  match verify_access_token token with
  | none => .error .invalidToken
  | some token_data =>
    if token_in_blacklist blacklist token_data.jti then
      .error .revokedToken
    else
      match kind with
      | .access =>
          if token_data.refresh then .error .accessTokenRequired
          else .ok token_data
      | .refresh =>
          if !token_data.refresh then .error .refreshTokenRequired
          else .ok token_data

/-- `AuthService.get_user_email` (`app/services/auth_service.py`): first
user whose email or username equals the credential string. -/
def get_user_email (credentials : String) (users : List User) : Option User :=
  users.find? (fun u => u.email == credentials || u.username == credentials)

/-- `get_current_user` (`app/core/dependencies.py`): looks up
`token["user"]["email"]` via `get_user_email` and returns the result as is —
`None` when no user row matches. -/
def get_current_user (token : TokenData) (users : List User) : Option User :=
  get_user_email token.email users

/-- `RoleChecker.__call__` (`app/core/dependencies.py`).  When the resolved
`current_user` is `None`, the very first line `current_user.is_verified`
dereferences `None` and raises `AttributeError` — an unhandled exception,
not a typed `APIException`. -/
def roleChecker (allowed_roles : List String) (current_user : Option User) :
    Except ServiceError Bool :=
  match current_user with
  | none => .error .attributeError
  | some u =>
      if !u.is_verified then .error (.api .accountNotVerified)
      else if allowed_roles.contains u.role then .ok true
      else .error (.api .permissionRequired)

/-! ## Ride listing -/

/-- Whether `pat` is an initial segment of `s` (character lists); helper for
the literal-substring semantics below. -/
def startsWithChars : List Char → List Char → Bool
  | [], _ => true
  | _ :: _, [] => false
  | a :: pat, b :: s => a == b && startsWithChars pat s

/-- Whether `pat` occurs contiguously somewhere in `s`: literal substring
containment.  This is the semantics the spec's words assert for the ride
listing ("case-insensitive substring match on destination"); it is stated
here only to be compared against the SQL `LIKE` semantics the query actually
has (`likeMatch`), with which it coincides exactly when the filter carries no
`LIKE` metacharacter. -/
def occursIn (pat : List Char) : List Char → Bool
  | [] => startsWithChars pat []
  | b :: s => startsWithChars pat (b :: s) || occursIn pat s

/-- SQL `LIKE` matching of a pattern against a string: `%` matches any
(possibly empty) character sequence, `_` matches exactly one arbitrary
character, every other pattern character matches itself.  No `ESCAPE`
clause is modelled because the query attaches none. -/
def likeMatch : List Char → List Char → Bool
  | [], s => s.isEmpty
  | p :: ps, s =>
      if p == '%' then
        s.tails.any (fun t => likeMatch ps t)
      else
        match s with
        | [] => false
        | c :: s2 => (p == '_' || p == c) && likeMatch ps s2

/-- Python `str.lower` / SQL `lower` of the strings in play, character by
character, as a character list. -/
def lowerChars (s : String) : List Char :=
  s.toList.map Char.toLower

/-- `RideService.get_rides` (`app/services/rides_service.py`): a `None`
destination raises `DestinationNotFoundException`; otherwise the query keeps
the rides where `func.lower(Ride.destination)` matches
`ilike(f"%{destination.lower()}%")` — case-insensitive `LIKE` of the lowered
column against percent-wildcard, lowered filter, percent-wildcard.  The
interpolated filter is not escaped, so `%` and `_` inside it keep their
`LIKE` wildcard meaning — and `Ride.available_seats > 0`. -/
def get_rides (destination : Option String) (db : DB) :
    Except ApiException (List Ride) :=
  match destination with
  | none => .error .destinationNotFound
  | some dest =>
      .ok (db.rides.filter (fun r =>
        likeMatch ('%' :: (lowerChars dest ++ ['%'])) (lowerChars r.destination)
          && decide (0 < r.available_seats)))

/-! ## URL-safe tokens and the email-verification endpoint -/

/-- A URL-safe token input as `URLSafeTimedSerializer.loads` classifies it:
whether its signature verifies, the dict it carries, and its age in seconds
at the moment of decoding. -/
structure UrlSafeToken where
  sig_ok : Bool
  data : List (String × String)
  age : Nat
deriving DecidableEq, Repr

/-- `max_age=1800`, the default of `decode_url_safe_token`. -/
def DEFAULT_MAX_AGE : Nat := 1800

/-- `decode_url_safe_token` (`app/utils/auth.py`): `serializer.loads`
raises `BadSignature` on a bad signature and `SignatureExpired` when the
token's age exceeds `max_age`; the `except` branch logs and falls off the
end of the function, returning `None`. -/
def decode_url_safe_token (private_key : UrlSafeToken) (max_age : Nat) :
    Option (List (String × String)) :=
  if private_key.sig_ok && decide (private_key.age ≤ max_age) then
    some private_key.data
  else
    none

/-- Python `dict.get`: the value at the key, if present. -/
def dictGet (d : List (String × String)) (key : String) : Option String :=
  (d.find? (fun kv => kv.1 == key)).map (fun kv => kv.2)

/-- Outcome of the email-verification endpoint: a JSON response with a
status, a typed exception handed to its registered handler, or an unhandled
Python exception. -/
inductive VerifyEmailOutcome
  | response (status : Nat) (message : String)
  | apiError (e : ApiException)
  | attributeError
deriving DecidableEq, Repr

/-- `verify_email` (`app/routers/auth.py`): decodes the path token with the
default `max_age`, reads `user_data.get('email')`, answers 500 when the
email is missing or empty (`if not user_email`), raises
`UserNotFoundException` when no user row matches, and otherwise marks the
user verified and answers 200.  When `decode_url_safe_token` returned
`None`, the attribute access `user_data.get` on `None` raises
`AttributeError` before the in-endpoint 500 branch can run. -/
def verify_email (user_private_key : UrlSafeToken) (users : List User) :
    VerifyEmailOutcome :=
  match decode_url_safe_token user_private_key DEFAULT_MAX_AGE with
  | none => .attributeError
  | some user_data =>
    match dictGet user_data "email" with
    | none => .response 500 "Could not verify your email. An error ocurred!"
    | some user_email =>
      if user_email == "" then
        .response 500 "Could not verify your email. An error ocurred!"
      else
        match get_user_email user_email users with
        | none => .apiError .userNotFound
        | some _ => .response 200 "User account verified successfully!"

/-! ## Helper lemmas -/

/-- `List.find?` on a cons whose head satisfies the predicate, with the
predicate explicit. -/
theorem find?_cons_pos {α : Type} (p : α → Bool) (a : α) (l : List α)
    (h : p a = true) : (a :: l).find? p = some a := by
  simp [List.find?, h]

/-- `List.find?` on a cons whose head fails the predicate, with the
predicate explicit. -/
theorem find?_cons_neg {α : Type} (p : α → Bool) (a : α) (l : List α)
    (h : p a = false) : (a :: l).find? p = l.find? p := by
  simp [List.find?, h]

/-- A found ride carries the id it was looked up by. -/
theorem findRide_id (db : DB) (ride_id : String) (r : Ride)
    (h : findRide db ride_id = some r) : r.id = ride_id := by
  unfold findRide at h
  have hp := List.find?_some h
  exact eq_of_beq hp

/-- Looking the ride up again after the seat decrement of a successful
booking finds the same ride with one seat fewer. -/
theorem find_update_seats (l : List Ride) (ride_id : String) (r : Ride)
    (h : l.find? (fun x => x.id == ride_id) = some r) :
    (l.map (fun x =>
        if x.id == r.id then { x with available_seats := x.available_seats - 1 }
        else x)).find? (fun x => x.id == ride_id)
      = some { r with available_seats := r.available_seats - 1 } := by
  induction l with
  | nil => simp at h
  | cons a l ih =>
    by_cases ha : (a.id == ride_id) = true
    · rw [find?_cons_pos (fun x : Ride => x.id == ride_id) a l ha] at h
      have har : a = r := by injection h
      subst har
      simp only [List.map_cons, if_pos (beq_self_eq_true a.id)]
      exact find?_cons_pos (fun x : Ride => x.id == ride_id) _ _ ha
    · have ha' : (a.id == ride_id) = false := by
        cases hv : a.id == ride_id with
        | true => exact absurd hv ha
        | false => rfl
      rw [find?_cons_neg (fun x : Ride => x.id == ride_id) a l ha'] at h
      have hp := List.find?_some h
      have hr : r.id = ride_id := eq_of_beq hp
      have ha2 : (a.id == r.id) = false := by
        rw [hr]; exact ha'
      simp only [List.map_cons, ha2, Bool.false_eq_true, if_false]
      rw [find?_cons_neg (fun x : Ride => x.id == ride_id) a _ ha']
      exact ih h

/-- Reduction of `book_a_ride` on a missing ride: the `if not result:`
guard never fires, so the call crashes with `AttributeError` at
`ride.driver` and nothing is persisted. -/
theorem book_a_ride_none_eq (db : DB) (ride_id user_id : String)
    (c : CommitOutcome) (hfind : findRide db ride_id = none) :
    book_a_ride db ride_id user_id c = (Except.error ServiceError.attributeError, db) := by
  unfold book_a_ride
  rw [hfind]

/-- Reduction of `book_a_ride` when the caller is the ride's driver. -/
theorem book_a_ride_driver_eq (db : DB) (ride_id user_id : String)
    (c : CommitOutcome) (r : Ride) (hfind : findRide db ride_id = some r)
    (hdrv : (r.driver_id == user_id) = true) :
    book_a_ride db ride_id user_id c
      = (Except.error (ServiceError.api ApiException.driverCannotBookRide), db) := by
  unfold book_a_ride
  rw [hfind]
  simp only [hdrv, if_true]

/-- Reduction of `book_a_ride` when no seats are left. -/
theorem book_a_ride_noSeats_eq (db : DB) (ride_id user_id : String)
    (c : CommitOutcome) (r : Ride) (hfind : findRide db ride_id = some r)
    (hdrv : (r.driver_id == user_id) = false)
    (hseat : (r.available_seats == 0) = true) :
    book_a_ride db ride_id user_id c
      = (Except.error (ServiceError.api ApiException.noSeatsLeft), db) := by
  unfold book_a_ride
  rw [hfind]
  simp only [hdrv, hseat, Bool.false_eq_true, if_false, if_true]

/-- Reduction of `book_a_ride` when a booking for the pair already exists. -/
theorem book_a_ride_dup_eq (db : DB) (ride_id user_id : String)
    (c : CommitOutcome) (r : Ride) (hfind : findRide db ride_id = some r)
    (hdrv : (r.driver_id == user_id) = false)
    (hseat : (r.available_seats == 0) = false)
    (hdup : (db.bookings.any
        (fun b => b.ride_id == ride_id && b.passenger_id == user_id)) = true) :
    book_a_ride db ride_id user_id c
      = (Except.error (ServiceError.api ApiException.bookingAlreadyExists), db) := by
  unfold book_a_ride
  rw [hfind]
  simp only [hdrv, hseat, hdup, Bool.false_eq_true, if_false, if_true]

/-- Reduction of `book_a_ride` when every precondition passes and the
commit raises `IntegrityError`: rollback, nothing persisted. -/
theorem book_a_ride_integrity_eq (db : DB) (ride_id user_id : String)
    (r : Ride) (hfind : findRide db ride_id = some r)
    (hdrv : (r.driver_id == user_id) = false)
    (hseat : (r.available_seats == 0) = false)
    (hdup : (db.bookings.any
        (fun b => b.ride_id == ride_id && b.passenger_id == user_id)) = false) :
    book_a_ride db ride_id user_id CommitOutcome.integrityError
      = (Except.error (ServiceError.api ApiException.cannotBookRide), db) := by
  unfold book_a_ride
  rw [hfind]
  simp only [hdrv, hseat, hdup, Bool.false_eq_true, if_false]

/-- Reduction of `book_a_ride` when every precondition passes and the
commit succeeds: the pending one-seat booking row is appended and the
ride's seat count is decremented. -/
theorem book_a_ride_ok_eq (db : DB) (ride_id user_id : String)
    (r : Ride) (hfind : findRide db ride_id = some r)
    (hdrv : (r.driver_id == user_id) = false)
    (hseat : (r.available_seats == 0) = false)
    (hdup : (db.bookings.any
        (fun b => b.ride_id == ride_id && b.passenger_id == user_id)) = false) :
    book_a_ride db ride_id user_id CommitOutcome.ok
      = (Except.ok ⟨r.id, user_id, 1, r.price_per_seat, BookingStatus.pending⟩,
         ⟨db.rides.map (fun x =>
             if x.id == r.id then { x with available_seats := x.available_seats - 1 }
             else x),
          db.bookings ++ [⟨r.id, user_id, 1, r.price_per_seat, BookingStatus.pending⟩]⟩) := by
  unfold book_a_ride
  rw [hfind]
  simp only [hdrv, hseat, hdup, Bool.false_eq_true, if_false]

/-- Case analysis of one `book_a_ride` call on an existing ride: either it
fails and the persisted state is unchanged, or it succeeds, in which case the
ride had seats left, its seat count went down by one, and exactly the new
pending one-seat booking row was appended. -/
theorem book_step_cases (db : DB) (ride_id user_id : String) (c : CommitOutcome)
    (r : Ride) (hfind : findRide db ride_id = some r) :
    (∃ e, book_a_ride db ride_id user_id c = (Except.error e, db)) ∨
    (∃ b db2, book_a_ride db ride_id user_id c = (Except.ok b, db2) ∧
        r.available_seats ≠ 0 ∧
        findRide db2 ride_id = some { r with available_seats := r.available_seats - 1 } ∧
        db2.bookings = db.bookings ++ [b] ∧
        b.ride_id = r.id ∧ b.passenger_id = user_id ∧
        b.seats_booked = 1 ∧ b.total_price = r.price_per_seat ∧
        b.status = BookingStatus.pending) := by
  by_cases hdrv : (r.driver_id == user_id) = true
  · exact Or.inl ⟨_, book_a_ride_driver_eq db ride_id user_id c r hfind hdrv⟩
  · have hdrv' : (r.driver_id == user_id) = false := by
      cases hv : r.driver_id == user_id with
      | true => exact absurd hv hdrv
      | false => rfl
    by_cases hseat : (r.available_seats == 0) = true
    · exact Or.inl ⟨_, book_a_ride_noSeats_eq db ride_id user_id c r hfind hdrv' hseat⟩
    · have hseat' : (r.available_seats == 0) = false := by
        cases hv : r.available_seats == 0 with
        | true => exact absurd hv hseat
        | false => rfl
      by_cases hdup : (db.bookings.any
          (fun b => b.ride_id == ride_id && b.passenger_id == user_id)) = true
      · exact Or.inl ⟨_, book_a_ride_dup_eq db ride_id user_id c r hfind hdrv' hseat' hdup⟩
      · have hdup' : (db.bookings.any
            (fun b => b.ride_id == ride_id && b.passenger_id == user_id)) = false := by
          cases hv : db.bookings.any
              (fun b => b.ride_id == ride_id && b.passenger_id == user_id) with
          | true => exact absurd hv hdup
          | false => rfl
        cases c with
        | integrityError =>
            exact Or.inl ⟨_, book_a_ride_integrity_eq db ride_id user_id r hfind hdrv' hseat' hdup'⟩
        | ok =>
            refine Or.inr ⟨⟨r.id, user_id, 1, r.price_per_seat, BookingStatus.pending⟩, _,
              book_a_ride_ok_eq db ride_id user_id r hfind hdrv' hseat' hdup',
              fun hc => hseat (beq_iff_eq.mpr hc), ?_, rfl, rfl, rfl, rfl, rfl, rfl⟩
            exact find_update_seats db.rides ride_id r hfind

/-! ## Claim theorems -/

/-- C2: the claim says a nonexistent rideId always yields `RideNotFound`.
In the source the guard `if not result:` tests the SQLAlchemy `Result`
object — which is always truthy — instead of the fetched ride, so for a
missing ride the call instead crashes with an `AttributeError` at
`ride.driver`, which only the opaque 500 global handler sees; the
`RideNotFoundException` (registered at 404) is never raised.  Evaluation at
the failing input: an empty database and any ride id. -/
theorem book_a_ride_missing_ride_crashes :
    book_a_ride ⟨[], []⟩ "missing-ride" "alice" CommitOutcome.ok
      = (Except.error ServiceError.attributeError, ⟨[], []⟩) ∧
    ServiceError.attributeError ≠ ServiceError.api ApiException.rideNotFound ∧
    responseStatus ServiceError.attributeError = 500 ∧
    handlerStatus ApiException.rideNotFound = 404 := by
  exact ⟨rfl, by decide, rfl, rfl⟩

/-- C4: booking a ride that exists but has `available_seats == 0`, by a
user other than its driver, always fails with `NoSeatsLeft` and performs no
writes: the persisted state is returned unchanged (no booking row, no seat
change). -/
theorem book_a_ride_zero_seats_rejected (db : DB) (ride_id user_id : String)
    (c : CommitOutcome) (r : Ride)
    (hfind : findRide db ride_id = some r)
    (hseats : r.available_seats = 0)
    (hdrv : r.driver_id ≠ user_id) :
    book_a_ride db ride_id user_id c
      = (Except.error (ServiceError.api ApiException.noSeatsLeft), db) :=
  book_a_ride_noSeats_eq db ride_id user_id c r hfind
    (beq_eq_false_iff_ne.mpr hdrv) (beq_iff_eq.mpr hseats)

/-- Witness for C4: a concrete ride with zero seats. -/
theorem book_a_ride_zero_seats_rejected_witness :
    book_a_ride ⟨[⟨"r1", "drv", 0, "Nairobi", "Mombasa", 10⟩], []⟩ "r1" "p1" CommitOutcome.ok
      = (Except.error (ServiceError.api ApiException.noSeatsLeft),
         ⟨[⟨"r1", "drv", 0, "Nairobi", "Mombasa", 10⟩], []⟩) :=
  book_a_ride_zero_seats_rejected ⟨[⟨"r1", "drv", 0, "Nairobi", "Mombasa", 10⟩], []⟩ "r1" "p1" CommitOutcome.ok
    ⟨"r1", "drv", 0, "Nairobi", "Mombasa", 10⟩ rfl rfl (by decide)

/-- C5: when every precondition passes but the storage layer raises
`IntegrityError` at commit time, the transaction is rolled back — the
returned persisted state is exactly the state before the call, so neither
the booking row nor the seat decrement survives — and the surfaced failure
is `CannotBookRideException`, whose registered handler answers 500,
distinct from the four user-facing precondition failures and their
statuses. -/
theorem book_a_ride_integrity_race_rolls_back (db : DB) (ride_id user_id : String)
    (r : Ride)
    (hfind : findRide db ride_id = some r)
    (hdrv : r.driver_id ≠ user_id)
    (hseats : r.available_seats ≠ 0)
    (hdup : (db.bookings.any
        (fun b => b.ride_id == ride_id && b.passenger_id == user_id)) = false) :
    book_a_ride db ride_id user_id CommitOutcome.integrityError
      = (Except.error (ServiceError.api ApiException.cannotBookRide), db) ∧
    handlerStatus ApiException.cannotBookRide = 500 ∧
    (ApiException.cannotBookRide ≠ ApiException.rideNotFound ∧
     ApiException.cannotBookRide ≠ ApiException.driverCannotBookRide ∧
     ApiException.cannotBookRide ≠ ApiException.noSeatsLeft ∧
     ApiException.cannotBookRide ≠ ApiException.bookingAlreadyExists) ∧
    handlerStatus ApiException.rideNotFound = 404 ∧
    handlerStatus ApiException.driverCannotBookRide = 400 ∧
    handlerStatus ApiException.noSeatsLeft = 400 ∧
    handlerStatus ApiException.bookingAlreadyExists = 400 := by
  refine ⟨?_, rfl, by decide, rfl, rfl, rfl, rfl⟩
  exact book_a_ride_integrity_eq db ride_id user_id r hfind
    (beq_eq_false_iff_ne.mpr hdrv)
    (by cases hv : r.available_seats == 0 with
        | true => exact absurd (beq_iff_eq.mp hv) hseats
        | false => rfl)
    hdup

/-- Witness for C5: a concrete clean state whose commit raises. -/
theorem book_a_ride_integrity_race_rolls_back_witness :
    book_a_ride ⟨[⟨"r1", "drv", 2, "Nairobi", "Mombasa", 10⟩], []⟩ "r1" "p1"
        CommitOutcome.integrityError
      = (Except.error (ServiceError.api ApiException.cannotBookRide),
         ⟨[⟨"r1", "drv", 2, "Nairobi", "Mombasa", 10⟩], []⟩) :=
  (book_a_ride_integrity_race_rolls_back ⟨[⟨"r1", "drv", 2, "Nairobi", "Mombasa", 10⟩], []⟩ "r1" "p1"
    ⟨"r1", "drv", 2, "Nairobi", "Mombasa", 10⟩ rfl (by decide) (by decide) rfl).1

/-- C6 counterexample: the claim says the token-type check runs before the
revocation check, so a wrong-type token whose jti is revoked is rejected
for wrong type.  In `TokenBearer.__call__` the blacklist check (line 44)
runs before the subclass type check (line 47): a revoked refresh token
presented to an access-token endpoint is rejected as revoked, not as
wrong-type. -/
theorem gate_revoked_beats_wrong_type :
    tokenBearerCall BearerKind.access ["jti-1"]
        (Token.valid ⟨"jti-1", true, "u@mail.com"⟩)
      = Except.error ApiException.revokedToken ∧
    ApiException.revokedToken ≠ ApiException.accessTokenRequired := by
  exact ⟨rfl, by decide⟩

/-- C6 amended: the gate checks decode/signature first (401), then the
jti blacklist (401), and only then the required token type (403 when an
access endpoint got a refresh token, 401 when a refresh endpoint got an
access token); a revoked token of the wrong type is therefore rejected as
revoked. -/
theorem gate_check_order (kind : BearerKind) (blacklist : List String) (t : Token) :
    (verify_access_token t = none →
        tokenBearerCall kind blacklist t = Except.error ApiException.invalidToken) ∧
    (∀ d, verify_access_token t = some d →
        token_in_blacklist blacklist d.jti = true →
        tokenBearerCall kind blacklist t = Except.error ApiException.revokedToken) ∧
    (∀ d, verify_access_token t = some d →
        token_in_blacklist blacklist d.jti = false →
        tokenBearerCall kind blacklist t =
          (match kind with
           | .access =>
               if d.refresh then Except.error ApiException.accessTokenRequired
               else Except.ok d
           | .refresh =>
               if d.refresh then Except.ok d
               else Except.error ApiException.refreshTokenRequired)) ∧
    handlerStatus ApiException.invalidToken = 401 ∧
    handlerStatus ApiException.revokedToken = 401 ∧
    handlerStatus ApiException.accessTokenRequired = 403 ∧
    handlerStatus ApiException.refreshTokenRequired = 401 := by
  refine ⟨?_, ?_, ?_, rfl, rfl, rfl, rfl⟩
  · intro h
    unfold tokenBearerCall
    rw [h]
  · intro d hd hbl
    unfold tokenBearerCall
    rw [hd]
    simp only [hbl, if_true]
  · intro d hd hbl
    unfold tokenBearerCall
    rw [hd]
    simp only [hbl, Bool.false_eq_true, if_false]
    cases kind with
    | access => cases hr : d.refresh <;> simp [Bool.not_eq_true]
    | refresh => cases hr : d.refresh <;> simp [Bool.not_eq_true]

/-- Witness for C6 amended: a revoked, valid refresh token at a
refresh-token endpoint is rejected as revoked. -/
theorem gate_check_order_witness :
    tokenBearerCall BearerKind.refresh ["a-jti"]
        (Token.valid ⟨"a-jti", false, "m@mail.com"⟩)
      = Except.error ApiException.revokedToken :=
  (gate_check_order BearerKind.refresh ["a-jti"]
      (Token.valid ⟨"a-jti", false, "m@mail.com"⟩)).2.1
    ⟨"a-jti", false, "m@mail.com"⟩ rfl rfl

/-- C7 counterexample: the claim says the bad-signature/malformed outcome
is distinguishable from the expired-token outcome.  `verify_access_token`
catches every `jwt.PyJWTError` — `ExpiredSignatureError` included — and
returns `None` in all three cases, so the outcomes are identical. -/
theorem verify_token_expired_same_as_invalid :
    verify_access_token (Token.badSignature ⟨"j", false, "e@mail.com"⟩) = none ∧
    verify_access_token (Token.expired ⟨"j", false, "e@mail.com"⟩) = none ∧
    verify_access_token (Token.badSignature ⟨"j", false, "e@mail.com"⟩)
      = verify_access_token (Token.expired ⟨"j", false, "e@mail.com"⟩) :=
  ⟨rfl, rfl, rfl⟩

/-- C7 amended: `verify_access_token` never throws — every decode failure
(malformed payload, bad signature, and also a valid-signature expired
token) returns `None`, and only a validly signed unexpired token returns
its claims; the expired case is not distinguishable from the invalid
ones. -/
theorem verify_access_token_never_throws (t : Token) (d : TokenData) :
    verify_access_token t
      = (match t with
         | Token.valid payload => some payload
         | _ => none) ∧
    verify_access_token (Token.expired d)
      = verify_access_token (Token.badSignature d) := by
  cases t <;> exact ⟨rfl, rfl⟩

/-- C8: with the default `max_age=1800`, a URL-safe token aged 1801 seconds
fails `serializer.loads`, so `decode_url_safe_token` returns `None` — that
part of the claim holds.  But `verify_email` then evaluates
`user_data.get('email')` on `None`, raising `AttributeError` before its own
500 branch can answer: the endpoint crashes (only the catch-all global
handler responds) instead of responding on its own.  Evaluation at the
failing input: a validly signed token carrying an email, aged 1801 s. -/
theorem expired_url_token_crashes_verify_email :
    decode_url_safe_token ⟨true, [("email", "user@mail.com")], 1801⟩ DEFAULT_MAX_AGE = none ∧
    verify_email ⟨true, [("email", "user@mail.com")], 1801⟩
        [⟨"u1", "Jane", "Doe", "jane", "user@mail.com", false, "passenger"⟩]
      = VerifyEmailOutcome.attributeError ∧
    VerifyEmailOutcome.attributeError
      ≠ VerifyEmailOutcome.response 500 "Could not verify your email. An error ocurred!" := by
  exact ⟨rfl, rfl, by decide⟩

/-- Equation of `likeMatch` at a leading percent: the rest of the pattern
must match some suffix of the string. -/
theorem likeMatch_pct (q s : List Char) :
    likeMatch ('%' :: q) s = s.tails.any (fun t => likeMatch q t) := by
  simp [likeMatch]

/-- Equation of `likeMatch` at a non-percent pattern head and an empty
string. -/
theorem likeMatch_cons_nil (p : Char) (ps : List Char) (hp : (p == '%') = false) :
    likeMatch (p :: ps) [] = false := by
  simp [likeMatch, hp]

/-- Equation of `likeMatch` at a non-percent pattern head and a nonempty
string. -/
theorem likeMatch_cons_cons (p c : Char) (ps s : List Char) (hp : (p == '%') = false) :
    likeMatch (p :: ps) (c :: s) = ((p == '_' || p == c) && likeMatch ps s) := by
  simp [likeMatch, hp]

/-- `startsWithChars` is the initial-segment relation. -/
theorem startsWithChars_iff (p : List Char) :
    ∀ s, startsWithChars p s = true ↔ ∃ t, s = p ++ t := by
  induction p with
  | nil =>
      intro s
      simp [startsWithChars]
  | cons a p ih =>
      intro s
      cases s with
      | nil => simp [startsWithChars]
      | cons c s2 =>
          rw [show startsWithChars (a :: p) (c :: s2)
              = (a == c && startsWithChars p s2) from rfl]
          rw [Bool.and_eq_true, ih s2]
          constructor
          · rintro ⟨hac, t, rfl⟩
            refine ⟨t, ?_⟩
            rw [List.cons_append, eq_of_beq hac]
          · rintro ⟨t, ht⟩
            rw [List.cons_append] at ht
            injection ht with h1 h2
            refine ⟨?_, t, h2⟩
            rw [← h1]
            exact beq_self_eq_true c

/-- `occursIn` is contiguous-substring occurrence. -/
theorem occursIn_iff (p : List Char) :
    ∀ s, occursIn p s = true ↔ ∃ s1 s2, s = s1 ++ p ++ s2 := by
  intro s
  induction s with
  | nil =>
      rw [show occursIn p [] = startsWithChars p [] from rfl, startsWithChars_iff]
      constructor
      · rintro ⟨t, ht⟩
        obtain ⟨h1, h2⟩ := List.append_eq_nil.mp ht.symm
        subst h1
        exact ⟨[], [], rfl⟩
      · rintro ⟨s1, s2, hs⟩
        obtain ⟨h1, hrest⟩ := List.append_eq_nil.mp hs.symm
        obtain ⟨h2, h3⟩ := List.append_eq_nil.mp h1
        subst h3
        exact ⟨[], rfl⟩
  | cons b s ih =>
      rw [show occursIn p (b :: s)
          = (startsWithChars p (b :: s) || occursIn p s) from rfl]
      rw [Bool.or_eq_true, startsWithChars_iff, ih]
      constructor
      · rintro (⟨t, ht⟩ | ⟨s1, s2, rfl⟩)
        · exact ⟨[], t, by simpa using ht⟩
        · exact ⟨b :: s1, s2, rfl⟩
      · rintro ⟨s1, s2, hs⟩
        cases s1 with
        | nil => exact Or.inl ⟨s2, by simpa using hs⟩
        | cons x s1 =>
            simp only [List.cons_append] at hs
            injection hs with h1 h2
            exact Or.inr ⟨s1, s2, h2⟩

/-- A wildcard-free pattern followed by a percent matches exactly the
strings it is an initial segment of. -/
theorem likeMatch_noWild_pct (p : List Char) :
    ∀ s, p.all (fun c => !(c == '%') && !(c == '_')) = true →
      (likeMatch (p ++ ['%']) s = true ↔ ∃ t, s = p ++ t) := by
  induction p with
  | nil =>
      intro s _
      rw [List.nil_append, likeMatch_pct, List.any_eq_true]
      constructor
      · intro _
        exact ⟨s, rfl⟩
      · intro _
        refine ⟨[], ?_, rfl⟩
        rw [List.mem_tails]
        exact List.nil_suffix
  | cons a p ih =>
      intro s hw
      rw [List.all_cons, Bool.and_eq_true, Bool.and_eq_true] at hw
      obtain ⟨⟨ha1, ha2⟩, hwp⟩ := hw
      have haP : (a == '%') = false := by
        cases hv : a == '%' with
        | true => rw [hv] at ha1; exact absurd ha1 (by decide)
        | false => rfl
      have haU : (a == '_') = false := by
        cases hv : a == '_' with
        | true => rw [hv] at ha2; exact absurd ha2 (by decide)
        | false => rfl
      cases s with
      | nil =>
          rw [List.cons_append, likeMatch_cons_nil a (p ++ ['%']) haP]
          constructor
          · intro h
            exact absurd h (by decide)
          · rintro ⟨t, ht⟩
            rw [List.cons_append] at ht
            exact absurd ht (by simp)
      | cons c s2 =>
          rw [List.cons_append, likeMatch_cons_cons a c (p ++ ['%']) s2 haP]
          rw [haU, Bool.false_or, Bool.and_eq_true, ih s2 hwp]
          constructor
          · rintro ⟨hac, t, rfl⟩
            refine ⟨t, ?_⟩
            rw [List.cons_append, eq_of_beq hac]
          · rintro ⟨t, ht⟩
            rw [List.cons_append] at ht
            injection ht with h1 h2
            refine ⟨?_, t, h2⟩
            rw [← h1]
            exact beq_self_eq_true c

/-- The full query pattern — percent, wildcard-free filter, percent —
matches exactly the strings in which the filter occurs contiguously. -/
theorem likeMatch_pct_wrap (p s : List Char)
    (hw : p.all (fun c => !(c == '%') && !(c == '_')) = true) :
    likeMatch ('%' :: (p ++ ['%'])) s = true ↔ ∃ s1 s2, s = s1 ++ p ++ s2 := by
  rw [likeMatch_pct, List.any_eq_true]
  constructor
  · rintro ⟨t, hmem, hlm⟩
    rw [List.mem_tails] at hmem
    obtain ⟨s1, rfl⟩ := hmem
    obtain ⟨s2, rfl⟩ := (likeMatch_noWild_pct p t hw).mp hlm
    exact ⟨s1, s2, (List.append_assoc s1 p s2).symm⟩
  · rintro ⟨s1, s2, rfl⟩
    refine ⟨p ++ s2, ?_, ?_⟩
    · rw [List.mem_tails]
      exact ⟨s1, (List.append_assoc s1 p s2).symm⟩
    · exact (likeMatch_noWild_pct p (p ++ s2) hw).mpr ⟨s2, rfl⟩

/-- On a filter with no `LIKE` metacharacter, the query's `LIKE` match is
literal substring containment. -/
theorem likeMatch_eq_occursIn (p s : List Char)
    (hw : p.all (fun c => !(c == '%') && !(c == '_')) = true) :
    likeMatch ('%' :: (p ++ ['%'])) s = occursIn p s := by
  have h1 := likeMatch_pct_wrap p s hw
  have h2 := occursIn_iff p s
  cases hl : likeMatch ('%' :: (p ++ ['%'])) s with
  | true => exact (h2.mpr (h1.mp hl)).symm
  | false =>
      cases ho : occursIn p s with
      | true =>
          have hcontra := h1.mpr (h2.mp ho)
          rw [hl] at hcontra
          exact hcontra
      | false => rfl

/-- C9 counterexample: the claim reads the destination filter as a literal
case-insensitive substring.  The filter is interpolated into the `ilike`
pattern with no escaping, so `LIKE` metacharacters keep their wildcard
meaning: the filter `"a_c"` selects a ride with destination `"abc"` (`_`
matches the `b`), although `"a_c"` is not a substring of `"abc"`. -/
theorem get_rides_underscore_wildcard :
    get_rides (some "a_c") ⟨[⟨"r1", "drv", 2, "X", "abc", 9⟩], []⟩
      = Except.ok [⟨"r1", "drv", 2, "X", "abc", 9⟩] ∧
    occursIn (lowerChars "a_c") (lowerChars "abc") = false := by
  exact ⟨rfl, rfl⟩

/-- C9 amended: with no destination, `get_rides` fails with the 404-mapped
`DestinationNotFoundException` (the spec's required-destination client
error) instead of returning an empty result; with a destination it returns
exactly the rides with `available_seats > 0` whose lowered destination
matches the SQL `LIKE` pattern built as percent, lowered filter, percent —
`%` and `_` inside the unescaped filter act as wildcards; for a filter
containing neither `%` nor `_`, that match is exactly case-insensitive
substring containment. -/
theorem get_rides_like_filter (db : DB) (dest : String) (r : Ride) :
    get_rides none db = Except.error ApiException.destinationNotFound ∧
    handlerStatus ApiException.destinationNotFound = 404 ∧
    (∃ rides, get_rides (some dest) db = Except.ok rides ∧
      (r ∈ rides ↔ r ∈ db.rides ∧
        likeMatch ('%' :: (lowerChars dest ++ ['%']))
            (lowerChars r.destination) = true ∧
        0 < r.available_seats)) ∧
    ((lowerChars dest).all (fun c => !(c == '%') && !(c == '_')) = true →
      likeMatch ('%' :: (lowerChars dest ++ ['%'])) (lowerChars r.destination)
        = occursIn (lowerChars dest) (lowerChars r.destination)) := by
  refine ⟨rfl, rfl, ⟨_, rfl, ?_⟩, ?_⟩
  · rw [List.mem_filter]
    constructor
    · rintro ⟨hm, hp⟩
      rw [Bool.and_eq_true] at hp
      exact ⟨hm, hp.1, of_decide_eq_true hp.2⟩
    · rintro ⟨hm, h1, h2⟩
      refine ⟨hm, ?_⟩
      rw [Bool.and_eq_true]
      exact ⟨h1, decide_eq_true h2⟩
  · intro hw
    exact likeMatch_eq_occursIn (lowerChars dest) (lowerChars r.destination) hw

/-- Witness for C9 amended: the wildcard-free filter `"mba"` against
destination `"Mombasa"` — the query's `LIKE` match coincides with
case-insensitive substring containment there. -/
theorem get_rides_like_filter_witness :
    likeMatch ('%' :: (lowerChars "mba" ++ ['%'])) (lowerChars "Mombasa")
      = occursIn (lowerChars "mba") (lowerChars "Mombasa") :=
  (get_rides_like_filter ⟨[], []⟩ "mba"
      ⟨"r1", "drv", 2, "Nairobi", "Mombasa", 9⟩).2.2.2 (by decide)

/-- C10: a validly signed, unexpired, unrevoked access token whose
embedded email matches no user row passes the gate, `get_current_user`
returns `None` instead of a typed not-found failure, and `RoleChecker`
then dereferences `None` (`current_user.is_verified`), raising an
unhandled `AttributeError` — answered by the opaque 500 global handler,
not by the 404 `UserNotFoundException` handler. -/
theorem ghost_email_token_crashes_role_checker :
    tokenBearerCall BearerKind.access []
        (Token.valid ⟨"jti-9", false, "ghost@mail.com"⟩)
      = Except.ok ⟨"jti-9", false, "ghost@mail.com"⟩ ∧
    get_current_user ⟨"jti-9", false, "ghost@mail.com"⟩
        [⟨"u1", "Ann", "Lee", "ann", "ann@mail.com", true, "passenger"⟩] = none ∧
    roleChecker ["passenger"]
        (get_current_user ⟨"jti-9", false, "ghost@mail.com"⟩
          [⟨"u1", "Ann", "Lee", "ann", "ann@mail.com", true, "passenger"⟩])
      = Except.error ServiceError.attributeError ∧
    responseStatus ServiceError.attributeError = 500 ∧
    ServiceError.attributeError ≠ ServiceError.api ApiException.userNotFound ∧
    handlerStatus ApiException.userNotFound = 404 := by
  exact ⟨rfl, rfl, rfl, rfl, by decide, rfl⟩

/-- C3 counterexample: the claim says a previously canceled booking does
not block a new booking.  The duplicate-check query in `book_a_ride`
filters only on `(ride_id, passenger_id)` with no status condition, so a
state whose only booking for the pair is canceled still fails with
`BookingAlreadyExists`. -/
theorem canceled_booking_still_blocks :
    book_a_ride
        ⟨[⟨"r1", "drv", 3, "Nairobi", "Mombasa", 10⟩],
         [⟨"r1", "p1", 1, 10, BookingStatus.canceled⟩]⟩
        "r1" "p1" CommitOutcome.ok
      = (Except.error (ServiceError.api ApiException.bookingAlreadyExists),
         ⟨[⟨"r1", "drv", 3, "Nairobi", "Mombasa", 10⟩],
          [⟨"r1", "p1", 1, 10, BookingStatus.canceled⟩]⟩) ∧
    ([⟨"r1", "p1", 1, 10, BookingStatus.canceled⟩] : List Booking).all
        (fun b => b.status == BookingStatus.canceled) = true := by
  exact ⟨rfl, rfl⟩

/-- A pair with no stored booking has pair count zero. -/
theorem pairCount_zero_of_any_false (db : DB) (rid uid : String)
    (hdup : (db.bookings.any
        (fun b => b.ride_id == rid && b.passenger_id == uid)) = false) :
    pairCount db rid uid = 0 := by
  unfold pairCount
  rw [List.length_eq_zero, List.filter_eq_nil_iff]
  intro b hb
  have hfalse := List.any_eq_false.mp hdup b hb
  simpa using hfalse

/-- Appending one booking adds its pair count contribution. -/
theorem filter_pair_append (bs : List Booking) (nb : Booking) (rid uid : String) :
    ((bs ++ [nb]).filter (fun b => b.ride_id == rid && b.passenger_id == uid)).length
      = (bs.filter (fun b => b.ride_id == rid && b.passenger_id == uid)).length
        + (if (nb.ride_id == rid && nb.passenger_id == uid) = true then 1 else 0) := by
  rw [List.filter_append, List.length_append]
  congr 1
  by_cases hp : (nb.ride_id == rid && nb.passenger_id == uid) = true
  · simp [List.filter_cons, hp]
  · simp [List.filter_cons, hp]

/-- Inserting a booking for a pair that had none preserves the
at-most-one-booking-per-pair invariant. -/
theorem atMostOnePerPair_insert (db : DB) (rides2 : List Ride) (nb : Booking)
    (hcount : pairCount db nb.ride_id nb.passenger_id = 0)
    (h : atMostOnePerPair db) :
    atMostOnePerPair ⟨rides2, db.bookings ++ [nb]⟩ := by
  intro rid2 uid2
  show ((db.bookings ++ [nb]).filter
      (fun b => b.ride_id == rid2 && b.passenger_id == uid2)).length ≤ 1
  rw [filter_pair_append]
  by_cases hp : (nb.ride_id == rid2 && nb.passenger_id == uid2) = true
  · rw [Bool.and_eq_true] at hp
    obtain ⟨h1, h2⟩ := hp
    obtain rfl : rid2 = nb.ride_id := (eq_of_beq h1).symm
    obtain rfl : uid2 = nb.passenger_id := (eq_of_beq h2).symm
    have hz : (db.bookings.filter
        (fun b => b.ride_id == nb.ride_id && b.passenger_id == nb.passenger_id)).length = 0 :=
      hcount
    simp [hz]
  · have hle := h rid2 uid2
    have hle' : (db.bookings.filter
        (fun b => b.ride_id == rid2 && b.passenger_id == uid2)).length ≤ 1 := hle
    simp [hp]
    omega

/-- C3 amended: on an existing ride with a distinct passenger and seats
left, `book_a_ride` fails with `BookingAlreadyExists` precisely when some
booking — of any status, canceled included — is stored for the
(ride, passenger) pair; on that failure the persisted state is unchanged;
and every call preserves the invariant that at most one stored booking (of
any status) exists per pair. -/
theorem duplicate_booking_check_ignores_status (db : DB) (ride_id user_id : String)
    (c : CommitOutcome) (r : Ride)
    (hfind : findRide db ride_id = some r)
    (hdrv : r.driver_id ≠ user_id)
    (hseats : r.available_seats ≠ 0) :
    ((book_a_ride db ride_id user_id c).1
        = Except.error (ServiceError.api ApiException.bookingAlreadyExists)
      ↔ ∃ b ∈ db.bookings, b.ride_id = ride_id ∧ b.passenger_id = user_id) ∧
    ((book_a_ride db ride_id user_id c).1
        = Except.error (ServiceError.api ApiException.bookingAlreadyExists) →
      (book_a_ride db ride_id user_id c).2 = db) ∧
    (atMostOnePerPair db → atMostOnePerPair (book_a_ride db ride_id user_id c).2) := by
  have hdrv' : (r.driver_id == user_id) = false := beq_eq_false_iff_ne.mpr hdrv
  have hseat' : (r.available_seats == 0) = false := by
    cases hv : r.available_seats == 0 with
    | true => exact absurd (beq_iff_eq.mp hv) hseats
    | false => rfl
  by_cases hdup : (db.bookings.any
      (fun b => b.ride_id == ride_id && b.passenger_id == user_id)) = true
  · have heq := book_a_ride_dup_eq db ride_id user_id c r hfind hdrv' hseat' hdup
    rw [heq]
    refine ⟨⟨fun _ => ?_, fun _ => rfl⟩, fun _ => rfl, fun hh => hh⟩
    obtain ⟨b, hb, hpred⟩ := List.any_eq_true.mp hdup
    rw [Bool.and_eq_true] at hpred
    exact ⟨b, hb, eq_of_beq hpred.1, eq_of_beq hpred.2⟩
  · have hdup' : (db.bookings.any
        (fun b => b.ride_id == ride_id && b.passenger_id == user_id)) = false := by
      cases hv : db.bookings.any
          (fun b => b.ride_id == ride_id && b.passenger_id == user_id) with
      | true => exact absurd hv hdup
      | false => rfl
    have hnoex : ¬ ∃ b ∈ db.bookings, b.ride_id = ride_id ∧ b.passenger_id = user_id := by
      rintro ⟨b, hb, h1, h2⟩
      apply hdup
      rw [List.any_eq_true]
      refine ⟨b, hb, ?_⟩
      rw [Bool.and_eq_true]
      exact ⟨beq_iff_eq.mpr h1, beq_iff_eq.mpr h2⟩
    cases c with
    | integrityError =>
        have heq := book_a_ride_integrity_eq db ride_id user_id r hfind hdrv' hseat' hdup'
        rw [heq]
        refine ⟨⟨fun habs => absurd ?_ hnoex, fun hex => absurd hex hnoex⟩,
          fun habs => rfl, fun hh => hh⟩
        exact absurd habs (by simp)
    | ok =>
        have heq := book_a_ride_ok_eq db ride_id user_id r hfind hdrv' hseat' hdup'
        rw [heq]
        refine ⟨⟨fun habs => absurd habs (by simp), fun hex => absurd hex hnoex⟩,
          fun habs => absurd habs (by simp), fun hh => ?_⟩

        have hrid : r.id = ride_id := findRide_id db ride_id r hfind
        refine atMostOnePerPair_insert db _ _ ?_ hh
        show pairCount db r.id user_id = 0
        rw [hrid]
        exact pairCount_zero_of_any_false db ride_id user_id hdup'

/-- Witness for C3 amended: a concrete state with one canceled booking for
the pair; the call fails with `BookingAlreadyExists` and changes nothing. -/
theorem duplicate_booking_check_witness :
    ((book_a_ride
        ⟨[⟨"r2", "drv", 4, "Kisumu", "Nakuru", 15⟩],
         [⟨"r2", "p2", 1, 15, BookingStatus.canceled⟩]⟩
        "r2" "p2" CommitOutcome.ok).1
      = Except.error (ServiceError.api ApiException.bookingAlreadyExists)
      ↔ ∃ b ∈ ([⟨"r2", "p2", 1, 15, BookingStatus.canceled⟩] : List Booking),
          b.ride_id = "r2" ∧ b.passenger_id = "p2") ∧
    ((book_a_ride
        ⟨[⟨"r2", "drv", 4, "Kisumu", "Nakuru", 15⟩],
         [⟨"r2", "p2", 1, 15, BookingStatus.canceled⟩]⟩
        "r2" "p2" CommitOutcome.ok).1
        = Except.error (ServiceError.api ApiException.bookingAlreadyExists) →
      (book_a_ride
        ⟨[⟨"r2", "drv", 4, "Kisumu", "Nakuru", 15⟩],
         [⟨"r2", "p2", 1, 15, BookingStatus.canceled⟩]⟩
        "r2" "p2" CommitOutcome.ok).2
        = ⟨[⟨"r2", "drv", 4, "Kisumu", "Nakuru", 15⟩],
           [⟨"r2", "p2", 1, 15, BookingStatus.canceled⟩]⟩) ∧
    (atMostOnePerPair
        ⟨[⟨"r2", "drv", 4, "Kisumu", "Nakuru", 15⟩],
         [⟨"r2", "p2", 1, 15, BookingStatus.canceled⟩]⟩ →
      atMostOnePerPair (book_a_ride
        ⟨[⟨"r2", "drv", 4, "Kisumu", "Nakuru", 15⟩],
         [⟨"r2", "p2", 1, 15, BookingStatus.canceled⟩]⟩
        "r2" "p2" CommitOutcome.ok).2) :=
  duplicate_booking_check_ignores_status
    ⟨[⟨"r2", "drv", 4, "Kisumu", "Nakuru", 15⟩],
     [⟨"r2", "p2", 1, 15, BookingStatus.canceled⟩]⟩
    "r2" "p2" CommitOutcome.ok
    ⟨"r2", "drv", 4, "Kisumu", "Nakuru", 15⟩ rfl (by decide) (by decide)

/-- Seat count along any sequence of booking attempts: starting from a
non-negative seat count, after the run the ride's `available_seats` equals
the start count minus the number of successful bookings, and that value is
never negative (a success requires a nonzero seat count). -/
theorem runBookings_seats (ride_id : String) (reqs : List (String × CommitOutcome)) :
    ∀ (db : DB) (r : Ride), findRide db ride_id = some r → 0 ≤ r.available_seats →
      seatsOf (runBookings db ride_id reqs).1 ride_id
        = some (r.available_seats - ((runBookings db ride_id reqs).2 : Int)) ∧
      0 ≤ r.available_seats - ((runBookings db ride_id reqs).2 : Int) := by
  induction reqs with
  | nil =>
      intro db r h hpos
      constructor
      · simp [runBookings, seatsOf, h]
      · simpa using hpos
  | cons uc rest ih =>
      intro db r h hpos
      obtain ⟨u, c⟩ := uc
      rcases book_step_cases db ride_id u c r h with
        ⟨e, heq⟩ | ⟨b, db2, heq, hne, hfind2, hbk, hrid, hpass, hsb, htp, hst⟩
      · have hrun : runBookings db ride_id ((u, c) :: rest)
            = runBookings db ride_id rest := by
          simp only [runBookings, heq]
        rw [hrun]
        exact ih db r h hpos
      · have hrun : runBookings db ride_id ((u, c) :: rest)
            = ((runBookings db2 ride_id rest).1, (runBookings db2 ride_id rest).2 + 1) := by
          simp only [runBookings, heq]
        rw [hrun]
        dsimp only
        have hpos2 : 0 ≤ ({ r with available_seats := r.available_seats - 1 } : Ride).available_seats := by
          show 0 ≤ r.available_seats - 1
          omega
        obtain ⟨ha, hb⟩ := ih db2 { r with available_seats := r.available_seats - 1 } hfind2 hpos2
        have ha' : seatsOf (runBookings db2 ride_id rest).1 ride_id
            = some (r.available_seats - 1 - ((runBookings db2 ride_id rest).2 : Int)) := ha
        have hb' : 0 ≤ r.available_seats - 1 - ((runBookings db2 ride_id rest).2 : Int) := hb
        constructor
        · rw [ha']
          congr 1
          omega
        · omega

/-- C1: a successful `book_a_ride` call inserts exactly one new booking row
with `seats_booked=1`, `total_price = ride.price_per_seat` and
`status="pending"`, and decrements the ride's `available_seats` by one,
both in the single returned committed state; and along any sequence of
booking attempts on the ride, after N successful bookings
`available_seats = initial_seats - N`, never negative. -/
theorem booking_effect_and_seat_invariant (db : DB) (ride_id user_id : String)
    (c : CommitOutcome) (reqs : List (String × CommitOutcome)) (r : Ride)
    (hfind : findRide db ride_id = some r)
    (hpos : 0 ≤ r.available_seats) :
    (∀ b db2, book_a_ride db ride_id user_id c = (Except.ok b, db2) →
        b.seats_booked = 1 ∧ b.total_price = r.price_per_seat ∧
        b.status = BookingStatus.pending ∧
        db2.bookings = db.bookings ++ [b] ∧
        seatsOf db2 ride_id = some (r.available_seats - 1)) ∧
    (seatsOf (runBookings db ride_id reqs).1 ride_id
        = some (r.available_seats - ((runBookings db ride_id reqs).2 : Int)) ∧
     0 ≤ r.available_seats - ((runBookings db ride_id reqs).2 : Int)) := by
  constructor
  · intro b db2 hcall
    rcases book_step_cases db ride_id user_id c r hfind with
      ⟨e, heq⟩ | ⟨b', db2', heq, hne, hfind2, hbk, hrid, hpass, hsb, htp, hst⟩
    · rw [heq] at hcall
      have hfst : (Except.error (α := Booking) e, db).1 = (Except.ok (ε := ServiceError) b, db2).1 :=
        congrArg Prod.fst hcall
      exact absurd hfst (by simp)
    · rw [heq] at hcall
      have hfst : Except.ok (ε := ServiceError) b' = Except.ok b := congrArg Prod.fst hcall
      have hbeq : b' = b := by injection hfst
      have hdb : db2' = db2 := congrArg Prod.snd hcall
      subst hbeq
      subst hdb
      refine ⟨hsb, htp, hst, hbk, ?_⟩
      unfold seatsOf
      rw [hfind2]
      rfl
  · exact runBookings_seats ride_id reqs db r hfind hpos

/-- Witness for C1: a ride with two seats, two successful bookings. -/
theorem booking_effect_and_seat_invariant_witness :
    (∀ b db2,
        book_a_ride ⟨[⟨"r1", "drv", 2, "Nairobi", "Mombasa", 10⟩], []⟩ "r1" "p1"
            CommitOutcome.ok
          = (Except.ok b, db2) →
        b.seats_booked = 1 ∧
        b.total_price = (⟨"r1", "drv", 2, "Nairobi", "Mombasa", 10⟩ : Ride).price_per_seat ∧
        b.status = BookingStatus.pending ∧
        db2.bookings = (⟨[⟨"r1", "drv", 2, "Nairobi", "Mombasa", 10⟩], []⟩ : DB).bookings ++ [b] ∧
        seatsOf db2 "r1"
          = some ((⟨"r1", "drv", 2, "Nairobi", "Mombasa", 10⟩ : Ride).available_seats - 1)) ∧
    (seatsOf (runBookings ⟨[⟨"r1", "drv", 2, "Nairobi", "Mombasa", 10⟩], []⟩ "r1"
          [("p1", CommitOutcome.ok), ("p2", CommitOutcome.ok)]).1 "r1"
        = some ((⟨"r1", "drv", 2, "Nairobi", "Mombasa", 10⟩ : Ride).available_seats
            - ((runBookings ⟨[⟨"r1", "drv", 2, "Nairobi", "Mombasa", 10⟩], []⟩ "r1"
                [("p1", CommitOutcome.ok), ("p2", CommitOutcome.ok)]).2 : Int)) ∧
     0 ≤ (⟨"r1", "drv", 2, "Nairobi", "Mombasa", 10⟩ : Ride).available_seats
            - ((runBookings ⟨[⟨"r1", "drv", 2, "Nairobi", "Mombasa", 10⟩], []⟩ "r1"
                [("p1", CommitOutcome.ok), ("p2", CommitOutcome.ok)]).2 : Int)) :=
  booking_effect_and_seat_invariant
    ⟨[⟨"r1", "drv", 2, "Nairobi", "Mombasa", 10⟩], []⟩ "r1" "p1" CommitOutcome.ok
    [("p1", CommitOutcome.ok), ("p2", CommitOutcome.ok)]
    ⟨"r1", "drv", 2, "Nairobi", "Mombasa", 10⟩ rfl (by decide)

end TuShare
